import Mathlib

/-!
# CCServer lifecycle orchestrator (src/cc/CCServer.cpp)

A shallow embedding of `CCServer` as explicit state passing with an effect
trace.  Every call the C++ code makes into a collaborator (logging registry,
credential generator, signal bridge, libuv, the HTTP daemon, the operating
system) is recorded as one `Effect`, in program order.  What a collaborator
answers (return codes, thrown exceptions) is read from a `World` value; the
preprocessor symbols the file is compiled under are read from a `Build` value.
-/

namespace XmrigCC

/-! ## Data model -/

/-- The accessors of `CCServerConfig` used by `CCServer.cpp`, each as the value
the accessor returns.  The class itself is declared in `CCServerConfig.h`. -/
structure CCServerConfig where
  isValid : Bool
  background : Bool
  useTLS : Bool
  colors : Bool
  syslog : Bool
  logFile : String
  bindIp : String
  port : Int
  certFile : String
  keyFile : String
deriving DecidableEq, Repr

/-- Preprocessor symbols that select code in `CCServer.cpp`; `APP_NAME` is the
string macro of `version.h`. -/
structure Build where
  XMRIG_FEATURE_TLS : Bool
  WIN32 : Bool
  HAVE_SYSLOG_H : Bool
  APP_NAME : String
deriving DecidableEq, Repr

/-- Answers of the collaborators during one run.
`generate = some what` means `TlsGen::generate` throws a `std::exception` whose
`what()` is `what`; `none` means it returns normally.  `hcon` tells whether
`GetConsoleWindow()` returns a window.  `fork`, `setsid`, `chdir` are the return
values of the system calls, `setsidErrno` and `chdirErrno` the value of `errno`
read after them, and `httpdStart` is what `Httpd::start()` returns. -/
structure World where
  generate : Option String
  hcon : Bool
  fork : Int
  setsid : Int
  setsidErrno : Int
  chdir : Int
  chdirErrno : Int
  httpdStart : Int
deriving DecidableEq, Repr

/-- Log backends registered with `xmrig::Log::add`. -/
inductive Sink where
  | ConsoleLog
  | FileLog (path : String)
  | SysLog
deriving DecidableEq, Repr

/-- Severity of a log call: `LOG_ERR`, `LOG_WARN`, `LOG_INFO`. -/
inductive Level where
  | err
  | warn
  | info
deriving DecidableEq, Repr

/-- One variadic argument of a log call (`%s` or `%d`). -/
inductive Arg where
  | str (s : String)
  | int (n : Int)
deriving DecidableEq, Repr

/-- A log call: its level, its format string and its arguments in order. -/
structure LogLine where
  level : Level
  fmt : String
  args : List Arg
deriving DecidableEq, Repr

/-- Calls into collaborators, as they appear in `CCServer.cpp`. -/
inductive Effect where
  | logInit
  | logSetColors (colors : Bool)
  | logAdd (sink : Sink)
  | consoleCreate
  | log (line : LogLine)
  | tlsGenerate (certFile keyFile commonName : String)
  | signalsCreate
  | getConsoleWindow
  | showWindowHide
  | getStdHandle
  | closeHandle
  | freeConsole
  | fork
  | setsid
  | chdir (path : String)
  | summaryPrint
  | uvLoopThreadStart
  | httpdCreate
  | httpdStart
  | httpdStop
  | uvStop
deriving DecidableEq, Repr

/-- How a member function ends: it returns a value, the process leaves through
`exit(code)`, or a null `m_httpd` is dereferenced (undefined behaviour). -/
inductive Outcome (α : Type) where
  | ret (value : α)
  | exit (code : Int)
  | fault
deriving DecidableEq, Repr

/-- The members of `CCServer`; a shared pointer is modelled by whether it holds
an object. -/
structure CCServer where
  m_config : CCServerConfig
  m_console : Bool
  m_signals : Bool
  m_httpd : Bool
deriving DecidableEq, Repr

/-- The result of running a member function: the effects in program order, the
object afterwards, and how the function ended. -/
structure Run (α : Type) where
  trace : List Effect
  state : CCServer
  outcome : Outcome α
deriving Repr

/-- Puts the effects `pre` in front of a run. -/
def Run.after {α : Type} (pre : List Effect) (r : Run α) : Run α :=
  { r with trace := pre ++ r.trace }

/-! ## Constants of the system headers -/

/-- The value of `EINVAL` in `errno.h` (22 on Linux, the BSDs and Windows). -/
def EINVAL : Int := 22

/-- The value of `SIGHUP` in `signal.h` (and in `uv.h` on Windows). -/
def SIGHUP : Int := 1

/-- The value of `SIGINT` in `signal.h`. -/
def SIGINT : Int := 2

/-- The value of `SIGTERM` in `signal.h`. -/
def SIGTERM : Int := 15

/-- The call `LOG_ERR(fmt, args...)`. -/
def LOG_ERR (fmt : String) (args : List Arg) : Effect :=
  Effect.log ⟨Level.err, fmt, args⟩

/-- The call `LOG_WARN(fmt, args...)`. -/
def LOG_WARN (fmt : String) (args : List Arg) : Effect :=
  Effect.log ⟨Level.warn, fmt, args⟩

/-- The call `LOG_INFO(fmt, args...)`. -/
def LOG_INFO (fmt : String) (args : List Arg) : Effect :=
  Effect.log ⟨Level.info, fmt, args⟩

/-! ## The member functions -/

/-- The constructor `CCServer::CCServer` (lines 41-65), given the configuration
it builds from the parse result. -/
def CCServer.new (b : Build) (cfg : CCServerConfig) : Run Unit :=
  { trace :=
      [Effect.logInit]
        ++ (if cfg.background = false then
              [Effect.logSetColors cfg.colors, Effect.logAdd Sink.ConsoleLog, Effect.consoleCreate]
            else [])
        ++ (if cfg.logFile.isEmpty = false then [Effect.logAdd (Sink.FileLog cfg.logFile)] else [])
        ++ (if b.HAVE_SYSLOG_H = true ∧ cfg.syslog = true then [Effect.logAdd Sink.SysLog] else [])
    state :=
      { m_config := cfg
        m_console := !cfg.background
        m_signals := false
        m_httpd := false }
    outcome := Outcome.ret () }

/-- The function `CCServer::stop` (lines 159-164): `m_httpd->stop()` then
`uv_stop(uv_default_loop())`. -/
def CCServer.stop (self : CCServer) : Run Unit :=
  if self.m_httpd = true then
    { trace := [Effect.httpdStop, Effect.uvStop], state := self, outcome := Outcome.ret () }
  else
    { trace := [], state := self, outcome := Outcome.fault }

/-- The function `CCServer::onConsoleCommand` (lines 140-157). -/
def CCServer.onConsoleCommand (self : CCServer) (command : Char) : Run Unit :=
  if command = 'q' ∨ command = 'Q' then
    self.stop
  else if command = Char.ofNat 3 then
    Run.after [LOG_WARN "Ctrl+C received, exiting" []] self.stop
  else
    { trace := [], state := self, outcome := Outcome.ret () }

/-- The function `CCServer::onSignal` (lines 166-187): the switch chooses a log
line, then `stop()` is called. -/
def CCServer.onSignal (self : CCServer) (signum : Int) : Run Unit :=
  Run.after
    (if signum = SIGHUP then [LOG_WARN "SIGHUP received, exiting" []]
     else if signum = SIGTERM then [LOG_WARN "SIGTERM received, exiting" []]
     else if signum = SIGINT then [LOG_WARN "SIGINT received, exiting" []]
     else [])
    self.stop

/-- The function `CCServer::moveToBackground` (lines 189-225), both branches of
`#ifdef WIN32`. -/
def CCServer.moveToBackground (b : Build) (w : World) (self : CCServer) : Run Unit :=
  if b.WIN32 = true then
    if w.hcon = true then
      { trace := [Effect.getConsoleWindow, Effect.showWindowHide]
        state := self, outcome := Outcome.ret () }
    else
      { trace := [Effect.getConsoleWindow, Effect.getStdHandle, Effect.closeHandle,
                  Effect.freeConsole]
        state := self, outcome := Outcome.ret () }
  else if w.fork < 0 then
    { trace := [Effect.fork], state := self, outcome := Outcome.exit 1 }
  else if w.fork > 0 then
    { trace := [Effect.fork], state := self, outcome := Outcome.exit 0 }
  else
    { trace :=
        [Effect.fork, Effect.setsid]
          ++ (if w.setsid < 0 then
                [LOG_ERR "setsid() failed (errno = %d)" [Arg.int w.setsidErrno]]
              else [])
          ++ [Effect.chdir "/"]
          ++ (if w.chdir < 0 then
                [LOG_ERR "chdir() failed (errno = %d)" [Arg.int w.chdirErrno]]
              else [])
      state := self, outcome := Outcome.ret () }

/-- The function `CCServer::startUvLoopThread` (lines 131-138): a detached
thread that runs the default loop and closes it. -/
def CCServer.startUvLoopThread : List Effect :=
  [Effect.uvLoopThreadStart]

/-- The function `CCServer::start` (lines 75-129).  `gen` and `thrown` are the
block under `#ifdef XMRIG_FEATURE_TLS` (lines 83-98); `bg` is the call of
`moveToBackground` under `background()` (lines 102-105). -/
def CCServer.start (b : Build) (w : World) (self : CCServer) : Run Int :=
  let cfg := self.m_config
  if cfg.isValid = false then
    { trace := [LOG_ERR "Invalid config provided" []], state := self
      outcome := Outcome.ret EINVAL }
  else
    let tls : Bool := b.XMRIG_FEATURE_TLS && cfg.useTLS
    let gen : List Effect :=
      if tls = true then
        [Effect.tlsGenerate cfg.certFile cfg.keyFile (b.APP_NAME ++ " Server")]
      else []
    let thrown : Option String := if tls = true then w.generate else none
    match thrown with
    | some what =>
        { trace := gen ++ [LOG_ERR "%s" [Arg.str what]], state := self
          outcome := Outcome.ret EINVAL }
    | none =>
        let self1 : CCServer := { self with m_signals := true }
        let bg : Run Unit :=
          if cfg.background = true then CCServer.moveToBackground b w self1
          else { trace := [], state := self1, outcome := Outcome.ret () }
        match bg.outcome with
        | Outcome.exit code =>
            { trace := gen ++ [Effect.signalsCreate] ++ bg.trace, state := bg.state
              outcome := Outcome.exit code }
        | Outcome.fault =>
            { trace := gen ++ [Effect.signalsCreate] ++ bg.trace, state := bg.state
              outcome := Outcome.fault }
        | Outcome.ret _ =>
            let retVal := w.httpdStart
            { trace :=
                gen ++ [Effect.signalsCreate] ++ bg.trace ++ [Effect.summaryPrint]
                  ++ CCServer.startUvLoopThread
                  ++ [Effect.httpdCreate, Effect.httpdStart,
                      if retVal > 0 then
                        LOG_ERR "Failed to bind %sServer to %s:%d"
                          [Arg.str (if cfg.useTLS = true then "TLS " else ""),
                           Arg.str cfg.bindIp, Arg.int cfg.port]
                      else if retVal < 0 then
                        LOG_ERR "Invalid %s"
                          [Arg.str
                            (if cfg.useTLS = true then
                              "TLS Config. Check bindIp, port and the certificate/key file."
                             else "Config. Check bindIp and port.")]
                      else
                        LOG_INFO "Server stopped. Exit." []]
              state := { bg.state with m_httpd := true }
              outcome := Outcome.ret retVal }

/-! ## Observations on traces -/

/-- The log calls of a trace, in order. -/
def logLines : List Effect → List LogLine
  | [] => []
  | Effect.log line :: rest => line :: logLines rest
  | _ :: rest => logLines rest

/-- The credential provisioner is invoked. -/
def Effect.isTlsGenerate : Effect → Bool
  | Effect.tlsGenerate _ _ _ => true
  | _ => false

/-- A call made by `moveToBackground` to the operating system. -/
def Effect.isDaemonize : Effect → Bool
  | Effect.fork => true
  | Effect.setsid => true
  | Effect.chdir _ => true
  | Effect.getConsoleWindow => true
  | Effect.showWindowHide => true
  | Effect.getStdHandle => true
  | Effect.closeHandle => true
  | Effect.freeConsole => true
  | _ => false

/-- The last operating-system call of a completed `moveToBackground`:
`chdir` on POSIX, `ShowWindow` or `FreeConsole` on Windows. -/
def Effect.isDaemonizeLast : Effect → Bool
  | Effect.chdir _ => true
  | Effect.showWindowHide => true
  | Effect.freeConsole => true
  | _ => false

/-- The signal bridge is installed. -/
def Effect.isSignalsCreate : Effect → Bool
  | Effect.signalsCreate => true
  | _ => false

/-- The event-loop thread is started. -/
def Effect.isLoopThreadStart : Effect → Bool
  | Effect.uvLoopThreadStart => true
  | _ => false

/-- The listening service is constructed. -/
def Effect.isHttpdCreate : Effect → Bool
  | Effect.httpdCreate => true
  | _ => false

/-- The listening service's `start()` is called. -/
def Effect.isHttpdStart : Effect → Bool
  | Effect.httpdStart => true
  | _ => false

/-- In `tr`, every effect satisfying `q` has an effect satisfying `p` strictly
before it. -/
def Precedes (p q : Effect → Bool) (tr : List Effect) : Prop :=
  ∀ pre e post, tr = pre ++ e :: post → q e = true → ∃ x ∈ pre, p x = true

/-- In `tr`, no effect satisfying `p` comes after an effect satisfying `q`. -/
def NoneAfter (p q : Effect → Bool) (tr : List Effect) : Prop :=
  ∀ pre e post, tr = pre ++ e :: post → q e = true → ∀ x ∈ post, p x = false

/-- Executable check of `Precedes`: scanning from the left, a `p` effect is met
before any `q` effect. -/
def precedesB (p q : Effect → Bool) : List Effect → Bool
  | [] => true
  | e :: es => if q e = true then false else if p e = true then true else precedesB p q es

/-- Executable check of `NoneAfter`. -/
def noneAfterB (p q : Effect → Bool) : List Effect → Bool
  | [] => true
  | e :: es => (if q e = true then es.all (fun x => !p x) else true) && noneAfterB p q es

/-! ## Stop triggers delivered one after another -/

/-- Who asks for a stop: the signal bridge with a signal number, the console
with a keystroke, or a direct call of `stop()`. -/
inductive Trigger where
  | signal (signum : Int)
  | console (command : Char)
  | internal
deriving DecidableEq, Repr

/-- The member function a trigger runs. -/
def CCServer.deliver (self : CCServer) : Trigger → Run Unit
  | Trigger.signal signum => self.onSignal signum
  | Trigger.console command => self.onConsoleCommand command
  | Trigger.internal => self.stop

/-- Triggers delivered sequentially; delivery ends at the first one that does
not return. -/
def CCServer.deliverAll (self : CCServer) : List Trigger → Run Unit
  | [] => { trace := [], state := self, outcome := Outcome.ret () }
  | t :: ts =>
      match (self.deliver t).outcome with
      | Outcome.ret _ =>
          Run.after (self.deliver t).trace (CCServer.deliverAll (self.deliver t).state ts)
      | _ => self.deliver t

/-- A trigger whose handler reaches the call of `stop()`: every signal, the
keystrokes q, Q and Ctrl+C, and a direct call. -/
def Trigger.invokesStop : Trigger → Bool
  | Trigger.signal _ => true
  | Trigger.console command =>
      decide (command = 'q') || decide (command = 'Q') || decide (command = Char.ofNat 3)
  | Trigger.internal => true

/-! ## Sample inputs -/

/-- A valid foreground configuration with TLS. -/
def sampleConfig : CCServerConfig :=
  { isValid := true, background := false, useTLS := true, colors := true, syslog := false
    logFile := "", bindIp := "0.0.0.0", port := 3344
    certFile := "server.pem", keyFile := "server.key" }

/-- A POSIX build with TLS support. -/
def sampleBuild : Build :=
  { XMRIG_FEATURE_TLS := true, WIN32 := false, HAVE_SYSLOG_H := true, APP_NAME := "xmrigCC" }

/-- A world in which every collaborator succeeds and the service stops cleanly. -/
def sampleWorld : World :=
  { generate := none, hcon := false, fork := 0, setsid := 0, setsidErrno := 0
    chdir := 0, chdirErrno := 0, httpdStart := 0 }

/-- A server whose listening service has been constructed. -/
def servingServer : CCServer :=
  { m_config := sampleConfig, m_console := true, m_signals := true, m_httpd := true }

/-! ## Theorems -/

/-- Putting no effects in front of a run changes nothing. -/
theorem Run.after_nil {α : Type} (r : Run α) : Run.after [] r = r := by
  cases r
  rfl

/-- The constructor does not consult `isValid()`: its effects are the same for
a configuration and for its copy with any validity flag. -/
theorem new_trace_ignores_validity (b : Build) (cfg : CCServerConfig) (valid : Bool) :
    (CCServer.new b { cfg with isValid := valid }).trace = (CCServer.new b cfg).trace := by
  rfl

/-- A call of `stop()` emits no log line. -/
theorem stop_logLines (self : CCServer) : logLines self.stop.trace = [] := by
  unfold CCServer.stop
  split <;> rfl

/-- A call of `stop()` is never the same run as doing nothing. -/
theorem stop_ne_noop (self : CCServer) :
    self.stop ≠ { trace := [], state := self, outcome := Outcome.ret () } := by
  unfold CCServer.stop
  split <;> simp

/-- C2, as stated, fails: signal 10 is none of SIGHUP, SIGTERM, SIGINT, yet
`onSignal(10)` performs the stop sequence. -/
theorem onSignal_other_signal_stops :
    (10 : Int) ≠ SIGHUP ∧ (10 : Int) ≠ SIGTERM ∧ (10 : Int) ≠ SIGINT
      ∧ (servingServer.onSignal 10).trace = [Effect.httpdStop, Effect.uvStop]
      ∧ servingServer.onSignal 10 = servingServer.stop := by
  refine ⟨by decide, by decide, by decide, by rfl, by rfl⟩

/-- C2 amended (signal mapping).  For every signal number, `onSignal` is one call
of `stop()`, preceded by exactly one warning line naming the signal when it is
SIGHUP, SIGTERM or SIGINT, and by no log line otherwise; `stop()` itself logs
nothing. -/
theorem onSignal_logs_then_stops (self : CCServer) (signum : Int) :
    (signum = SIGHUP →
        self.onSignal signum = Run.after [LOG_WARN "SIGHUP received, exiting" []] self.stop)
      ∧ (signum = SIGTERM →
        self.onSignal signum = Run.after [LOG_WARN "SIGTERM received, exiting" []] self.stop)
      ∧ (signum = SIGINT →
        self.onSignal signum = Run.after [LOG_WARN "SIGINT received, exiting" []] self.stop)
      ∧ (signum ≠ SIGHUP → signum ≠ SIGTERM → signum ≠ SIGINT →
        self.onSignal signum = self.stop)
      ∧ logLines self.stop.trace = [] := by
  refine ⟨?_, ?_, ?_, ?_, stop_logLines self⟩
  · intro h
    subst h
    simp [CCServer.onSignal]
  · intro h
    subst h
    simp [CCServer.onSignal, SIGTERM, SIGHUP]
  · intro h
    subst h
    simp [CCServer.onSignal, SIGINT, SIGTERM, SIGHUP]
  · intro h1 h2 h3
    simp [CCServer.onSignal, h1, h2, h3, Run.after_nil]

/-- Witness of the amended C2 at SIGTERM and at signal 10 on a serving server. -/
theorem onSignal_logs_then_stops_witness :
    servingServer.onSignal SIGTERM
        = Run.after [LOG_WARN "SIGTERM received, exiting" []] servingServer.stop
      ∧ servingServer.onSignal 10 = servingServer.stop :=
  ⟨(onSignal_logs_then_stops servingServer SIGTERM).2.1 rfl,
   (onSignal_logs_then_stops servingServer 10).2.2.2.1 (by decide) (by decide) (by decide)⟩

/-- C7 (console mapping).  The keystrokes q and Q run exactly one `stop()` with no
log line; Ctrl+C (character 3) logs one warning line and then runs exactly one
`stop()`; every other keystroke does nothing; and a call of `stop()` is never
the same as doing nothing. -/
theorem onConsoleCommand_mapping (self : CCServer) (command : Char) :
    (command = 'q' ∨ command = 'Q' → self.onConsoleCommand command = self.stop)
      ∧ (command = Char.ofNat 3 →
          self.onConsoleCommand command
            = Run.after [LOG_WARN "Ctrl+C received, exiting" []] self.stop)
      ∧ (command ≠ 'q' → command ≠ 'Q' → command ≠ Char.ofNat 3 →
          self.onConsoleCommand command
            = { trace := [], state := self, outcome := Outcome.ret () })
      ∧ logLines self.stop.trace = []
      ∧ self.stop ≠ { trace := [], state := self, outcome := Outcome.ret () } := by
  refine ⟨?_, ?_, ?_, stop_logLines self, stop_ne_noop self⟩
  · intro h
    simp [CCServer.onConsoleCommand, h]
  · intro h
    subst h
    have h1 : ¬ (Char.ofNat 3 = 'q' ∨ Char.ofNat 3 = 'Q') := by decide
    simp [CCServer.onConsoleCommand, h1]
  · intro h1 h2 h3
    simp [CCServer.onConsoleCommand, h1, h2, h3]

/-- Witness of C7 at the keystrokes q, Ctrl+C and x on a serving server. -/
theorem onConsoleCommand_mapping_witness :
    servingServer.onConsoleCommand 'q' = servingServer.stop
      ∧ servingServer.onConsoleCommand (Char.ofNat 3)
          = Run.after [LOG_WARN "Ctrl+C received, exiting" []] servingServer.stop
      ∧ servingServer.onConsoleCommand 'x'
          = { trace := [], state := servingServer, outcome := Outcome.ret () } :=
  ⟨(onConsoleCommand_mapping servingServer 'q').1 (Or.inl rfl),
   (onConsoleCommand_mapping servingServer (Char.ofNat 3)).2.1 rfl,
   (onConsoleCommand_mapping servingServer 'x').2.2.1 (by decide) (by decide) (by decide)⟩

/-- C10 at its failing input.  After the constructor has run on the foreground
sample configuration the console is present and `m_httpd` is empty, and the
keystroke q makes `stop()` dereference the empty `m_httpd`; after `start()` has
returned on an invalid configuration the handle is still empty. -/
theorem console_quit_before_service_faults :
    (CCServer.new sampleBuild sampleConfig).state.m_console = true
      ∧ (CCServer.new sampleBuild sampleConfig).state.m_httpd = false
      ∧ ((CCServer.new sampleBuild sampleConfig).state.onConsoleCommand 'q').outcome
          = Outcome.fault
      ∧ ((CCServer.start sampleBuild sampleWorld
            (CCServer.new sampleBuild { sampleConfig with isValid := false }).state).state.onConsoleCommand
              'q').outcome = Outcome.fault := by
  refine ⟨by rfl, by rfl, by rfl, by rfl⟩

/-- With the handle present, a trigger that reaches `stop()` returns normally,
leaves the object unchanged and performs each teardown step once. -/
theorem deliver_of_handle (self : CCServer) (t : Trigger) (h : self.m_httpd = true)
    (ht : t.invokesStop = true) :
    (self.deliver t).state = self
      ∧ (self.deliver t).outcome = Outcome.ret ()
      ∧ (self.deliver t).trace.count Effect.httpdStop = 1
      ∧ (self.deliver t).trace.count Effect.uvStop = 1 := by
  cases t with
  | signal signum =>
      simp only [CCServer.deliver, CCServer.onSignal, CCServer.stop, Run.after, h, if_true]
      split_ifs <;> simp [LOG_WARN]
  | console command =>
      simp only [Trigger.invokesStop, Bool.or_eq_true, decide_eq_true_eq] at ht
      simp only [CCServer.deliver, CCServer.onConsoleCommand, CCServer.stop, Run.after, h, if_true]
      split_ifs with h1 h2
      · simp
      · simp [LOG_WARN]
      · exact absurd ht (by tauto)
  | internal =>
      simp [CCServer.deliver, CCServer.stop, h]

/-- C3, as stated, fails: two sequential calls of `stop()` on a serving server
perform the listening service's stop and the loop's stop twice each. -/
theorem stop_twice_tears_down_twice :
    (servingServer.deliverAll [Trigger.internal, Trigger.internal]).trace
        = [Effect.httpdStop, Effect.uvStop, Effect.httpdStop, Effect.uvStop]
      ∧ (servingServer.deliverAll [Trigger.internal, Trigger.internal]).trace.count
          Effect.httpdStop = 2
      ∧ (servingServer.deliverAll [Trigger.internal, Trigger.internal]).trace.count
          Effect.uvStop = 2 := by
  refine ⟨by rfl, by decide, by decide⟩

/-- C3 amended (stop is repeated, not guarded).  On a server whose listening
service has been constructed, delivering any sequence of N triggers that reach
`stop()` (signals, the keystrokes q, Q, Ctrl+C, direct calls) returns normally
and performs the listening service's stop and the loop's stop N times each:
once per call, with no once-only gate. -/
theorem stop_runs_once_per_call (ts : List Trigger) (self : CCServer)
    (h : self.m_httpd = true) (hts : ∀ t ∈ ts, t.invokesStop = true) :
    (self.deliverAll ts).outcome = Outcome.ret ()
      ∧ (self.deliverAll ts).state = self
      ∧ (self.deliverAll ts).trace.count Effect.httpdStop = ts.length
      ∧ (self.deliverAll ts).trace.count Effect.uvStop = ts.length := by
  induction ts with
  | nil => simp [CCServer.deliverAll]
  | cons t ts ih =>
      obtain ⟨hs, ho, hc1, hc2⟩ := deliver_of_handle self t h (hts t (List.mem_cons_self t ts))
      obtain ⟨io, is, ic1, ic2⟩ := ih (fun x hx => hts x (List.mem_cons_of_mem t hx))
      simp only [CCServer.deliverAll, ho, hs, Run.after, io, is, List.count_append, hc1, hc2,
        ic1, ic2, List.length_cons]
      refine ⟨trivial, trivial, by omega, by omega⟩

/-- Witness of the amended C3: a signal, a keystroke and a direct call, three
teardown sequences. -/
theorem stop_runs_once_per_call_witness :
    (servingServer.deliverAll
        [Trigger.signal SIGINT, Trigger.console 'q', Trigger.internal]).outcome = Outcome.ret ()
      ∧ (servingServer.deliverAll
          [Trigger.signal SIGINT, Trigger.console 'q', Trigger.internal]).state = servingServer
      ∧ (servingServer.deliverAll
          [Trigger.signal SIGINT, Trigger.console 'q', Trigger.internal]).trace.count
            Effect.httpdStop = [Trigger.signal SIGINT, Trigger.console 'q', Trigger.internal].length
      ∧ (servingServer.deliverAll
          [Trigger.signal SIGINT, Trigger.console 'q', Trigger.internal]).trace.count
            Effect.uvStop = [Trigger.signal SIGINT, Trigger.console 'q', Trigger.internal].length :=
  stop_runs_once_per_call [Trigger.signal SIGINT, Trigger.console 'q', Trigger.internal]
    servingServer rfl (by decide)

/-- The object is not changed by `moveToBackground`. -/
theorem moveToBackground_state (b : Build) (w : World) (self : CCServer) :
    (CCServer.moveToBackground b w self).state = self := by
  unfold CCServer.moveToBackground
  split_ifs <;> rfl

/-- On POSIX, a non-zero result of `fork()` ends the process right after the
call: code 1 for a failure, code 0 in the parent. -/
theorem moveToBackground_exit (b : Build) (w : World) (self : CCServer)
    (hw : b.WIN32 = false) (hf : w.fork ≠ 0) :
    CCServer.moveToBackground b w self
      = { trace := [Effect.fork], state := self
          outcome := Outcome.exit (if w.fork < 0 then 1 else 0) } := by
  unfold CCServer.moveToBackground
  rcases lt_trichotomy w.fork 0 with h | h | h
  · simp [hw, h]
  · exact absurd h hf
  · have hn : ¬ w.fork < 0 := not_lt.mpr h.le
    simp [hw, h, hn]

/-- On Windows, or in the child on POSIX, `moveToBackground` returns, and its
trace is one of the two Windows sequences or the POSIX sequence. -/
theorem moveToBackground_ret (b : Build) (w : World) (self : CCServer)
    (h : b.WIN32 = true ∨ w.fork = 0) :
    (CCServer.moveToBackground b w self).outcome = Outcome.ret ()
      ∧ ((b.WIN32 = true ∧ w.hcon = true
            ∧ (CCServer.moveToBackground b w self).trace
                = [Effect.getConsoleWindow, Effect.showWindowHide])
          ∨ (b.WIN32 = true ∧ w.hcon = false
            ∧ (CCServer.moveToBackground b w self).trace
                = [Effect.getConsoleWindow, Effect.getStdHandle, Effect.closeHandle,
                   Effect.freeConsole])
          ∨ (b.WIN32 = false ∧ w.fork = 0
            ∧ (CCServer.moveToBackground b w self).trace
                = [Effect.fork, Effect.setsid]
                    ++ (if w.setsid < 0 then
                          [LOG_ERR "setsid() failed (errno = %d)" [Arg.int w.setsidErrno]]
                        else [])
                    ++ [Effect.chdir "/"]
                    ++ (if w.chdir < 0 then
                          [LOG_ERR "chdir() failed (errno = %d)" [Arg.int w.chdirErrno]]
                        else []))) := by
  unfold CCServer.moveToBackground
  cases hw : b.WIN32
  · have hf : w.fork = 0 := by
      rcases h with h | h
      · rw [hw] at h
        exact absurd h (by decide)
      · exact h
    simp [hf]
  · cases hc : w.hcon <;> simp

/-- The first branch of `start()`: an invalid configuration. -/
theorem start_of_invalid (b : Build) (w : World) (self : CCServer)
    (hv : self.m_config.isValid = false) :
    CCServer.start b w self
      = { trace := [LOG_ERR "Invalid config provided" []], state := self
          outcome := Outcome.ret EINVAL } := by
  simp [CCServer.start, hv]

/-- The catch block of `start()`: the credential generator throws. -/
theorem start_generate_throws (b : Build) (w : World) (self : CCServer) (what : String)
    (hv : self.m_config.isValid = true)
    (ht : (b.XMRIG_FEATURE_TLS && self.m_config.useTLS) = true)
    (hg : w.generate = some what) :
    CCServer.start b w self
      = { trace :=
            [Effect.tlsGenerate self.m_config.certFile self.m_config.keyFile
                (b.APP_NAME ++ " Server"),
             LOG_ERR "%s" [Arg.str what]]
          state := self, outcome := Outcome.ret EINVAL } := by
  simp only [Bool.and_eq_true] at ht
  simp [CCServer.start, hv, ht.1, ht.2, hg]

/-- The runs of `start()` that leave through `exit` inside `moveToBackground`. -/
theorem start_fork_exits (b : Build) (w : World) (self : CCServer)
    (hv : self.m_config.isValid = true)
    (hg : (b.XMRIG_FEATURE_TLS && self.m_config.useTLS) = true → w.generate = none)
    (hb : self.m_config.background = true) (hw : b.WIN32 = false) (hf : w.fork ≠ 0) :
    CCServer.start b w self
      = { trace :=
            (if (b.XMRIG_FEATURE_TLS && self.m_config.useTLS) = true then
               [Effect.tlsGenerate self.m_config.certFile self.m_config.keyFile
                  (b.APP_NAME ++ " Server")]
             else [])
              ++ [Effect.signalsCreate, Effect.fork]
          state := { self with m_signals := true }
          outcome := Outcome.exit (if w.fork < 0 then 1 else 0) } := by
  cases ht : (b.XMRIG_FEATURE_TLS && self.m_config.useTLS)
  · simp [CCServer.start, hv, ht, hb, moveToBackground_exit b w _ hw hf]
  · simp [CCServer.start, hv, ht, hg ht, hb, moveToBackground_exit b w _ hw hf]

/-- The runs of `start()` that reach the listening service. -/
theorem start_serves (b : Build) (w : World) (self : CCServer)
    (hv : self.m_config.isValid = true)
    (hg : (b.XMRIG_FEATURE_TLS && self.m_config.useTLS) = true → w.generate = none)
    (hd : self.m_config.background = true → b.WIN32 = true ∨ w.fork = 0) :
    CCServer.start b w self
      = { trace :=
            (if (b.XMRIG_FEATURE_TLS && self.m_config.useTLS) = true then
               [Effect.tlsGenerate self.m_config.certFile self.m_config.keyFile
                  (b.APP_NAME ++ " Server")]
             else [])
              ++ [Effect.signalsCreate]
              ++ (if self.m_config.background = true then
                    (CCServer.moveToBackground b w { self with m_signals := true }).trace
                  else [])
              ++ [Effect.summaryPrint, Effect.uvLoopThreadStart, Effect.httpdCreate,
                  Effect.httpdStart,
                  if w.httpdStart > 0 then
                    LOG_ERR "Failed to bind %sServer to %s:%d"
                      [Arg.str (if self.m_config.useTLS = true then "TLS " else ""),
                       Arg.str self.m_config.bindIp, Arg.int self.m_config.port]
                  else if w.httpdStart < 0 then
                    LOG_ERR "Invalid %s"
                      [Arg.str
                        (if self.m_config.useTLS = true then
                          "TLS Config. Check bindIp, port and the certificate/key file."
                         else "Config. Check bindIp and port.")]
                  else
                    LOG_INFO "Server stopped. Exit." []]
          state := { self with m_signals := true, m_httpd := true }
          outcome := Outcome.ret w.httpdStart } := by
  cases ht : (b.XMRIG_FEATURE_TLS && self.m_config.useTLS) <;>
    cases hb : self.m_config.background
  · simp [CCServer.start, hv, ht, hb, CCServer.startUvLoopThread]
  · have ho := (moveToBackground_ret b w { self with m_signals := true } (hd hb)).1
    simp [CCServer.start, hv, ht, hb, ho, moveToBackground_state, CCServer.startUvLoopThread]
  · simp [CCServer.start, hv, ht, hg ht, hb, CCServer.startUvLoopThread]
  · have ho := (moveToBackground_ret b w { self with m_signals := true } (hd hb)).1
    simp [CCServer.start, hv, ht, hg ht, hb, ho, moveToBackground_state,
      CCServer.startUvLoopThread]


/-- Every effect of `moveToBackground` is an operating-system call of the
daemonization or a log line. -/
theorem moveToBackground_trace_kinds (b : Build) (w : World) (self : CCServer) :
    ∀ e ∈ (CCServer.moveToBackground b w self).trace,
      e.isDaemonize = true ∨ ∃ line, e = Effect.log line := by
  unfold CCServer.moveToBackground
  split_ifs <;> simp [LOG_ERR, Effect.isDaemonize]

/-- The only log lines of `moveToBackground` are those of a failed `setsid` and
a failed `chdir`. -/
theorem moveToBackground_log_fmt (b : Build) (w : World) (self : CCServer) (l : LogLine)
    (hl : Effect.log l ∈ (CCServer.moveToBackground b w self).trace) :
    l.fmt = "setsid() failed (errno = %d)" ∨ l.fmt = "chdir() failed (errno = %d)" := by
  unfold CCServer.moveToBackground at hl
  split_ifs at hl <;> simp [LOG_ERR] at hl
  · rcases hl with hl | hl <;> subst hl <;> simp
  · subst hl
    simp
  · subst hl
    simp

/-- A run of `start()` whose trace contains the call of `Httpd::start()` had a
valid configuration, no exception from the credential generator, and did not
leave through `exit` in `moveToBackground`. -/
theorem start_reaches_service (b : Build) (w : World) (self : CCServer)
    (hreach : Effect.httpdStart ∈ (CCServer.start b w self).trace) :
    self.m_config.isValid = true
      ∧ ((b.XMRIG_FEATURE_TLS && self.m_config.useTLS) = true → w.generate = none)
      ∧ (self.m_config.background = true → b.WIN32 = true ∨ w.fork = 0) := by
  cases hv : self.m_config.isValid
  · rw [start_of_invalid b w self hv] at hreach
    simp [LOG_ERR] at hreach
  · have hg : (b.XMRIG_FEATURE_TLS && self.m_config.useTLS) = true → w.generate = none := by
      intro ht
      cases hgen : w.generate with
      | none => rfl
      | some what =>
          rw [start_generate_throws b w self what hv ht hgen] at hreach
          simp [LOG_ERR] at hreach
    refine ⟨rfl, hg, ?_⟩
    intro hb
    by_contra hcon
    push_neg at hcon
    have hw : b.WIN32 = false := by simpa using hcon.1
    rw [start_fork_exits b w self hv hg hb hw hcon.2] at hreach
    split_ifs at hreach <;> simp at hreach

/-- C5 (return-code fidelity).  For a valid configuration whose startup is not
cut short (the credential generator, when TLS is enabled, returns normally, and
a background start on POSIX continues in the child of `fork()`), `start()`
calls the listening service's `start()`, and for every integer `r` that call
returns, `start()` returns exactly `r`, whatever its sign. -/
theorem start_returns_service_code (b : Build) (w : World) (self : CCServer) (r : Int)
    (hv : self.m_config.isValid = true)
    (hg : (b.XMRIG_FEATURE_TLS && self.m_config.useTLS) = true → w.generate = none)
    (hd : self.m_config.background = true → b.WIN32 = true ∨ w.fork = 0)
    (hr : w.httpdStart = r) :
    Effect.httpdStart ∈ (CCServer.start b w self).trace
      ∧ (CCServer.start b w self).outcome = Outcome.ret r := by
  rw [start_serves b w self hv hg hd, hr]
  simp

/-- Witness of C5: a negative code in a TLS background run on POSIX. -/
theorem start_returns_service_code_witness :
    Effect.httpdStart ∈
        (CCServer.start sampleBuild { sampleWorld with httpdStart := -2 }
          (CCServer.new sampleBuild { sampleConfig with background := true }).state).trace
      ∧ (CCServer.start sampleBuild { sampleWorld with httpdStart := -2 }
          (CCServer.new sampleBuild { sampleConfig with background := true }).state).outcome
        = Outcome.ret (-2) :=
  start_returns_service_code sampleBuild { sampleWorld with httpdStart := -2 }
    (CCServer.new sampleBuild { sampleConfig with background := true }).state (-2) rfl
    (fun _ => rfl) (fun _ => Or.inr rfl) rfl

/-- C6 (outcome logging).  For a valid configuration whose startup is not cut
short (the credential generator, when TLS is enabled, returns normally, and a
background start on POSIX continues in the child of `fork()`), the trace of
`start()` contains the call of `Httpd::start()` once, followed by exactly one
effect, a log line chosen by the sign of the returned code `r`: for `r > 0` the
error line about the failed bind, carrying the TLS marker, the bind address and
the port; for `r < 0` the error line whose text names the certificate/key file
under `useTLS()` and only bindIp and port otherwise; for `r = 0` the
informational line that the server stopped. -/
theorem start_logs_service_outcome (b : Build) (w : World) (self : CCServer)
    (hv : self.m_config.isValid = true)
    (hg : (b.XMRIG_FEATURE_TLS && self.m_config.useTLS) = true → w.generate = none)
    (hd : self.m_config.background = true → b.WIN32 = true ∨ w.fork = 0) :
    ∃ pre line,
      (CCServer.start b w self).trace = pre ++ [Effect.httpdStart, Effect.log line]
        ∧ Effect.httpdStart ∉ pre
        ∧ (∀ l, Effect.log l ∈ pre →
            l.fmt = "setsid() failed (errno = %d)" ∨ l.fmt = "chdir() failed (errno = %d)")
        ∧ (0 < w.httpdStart →
            line = { level := Level.err, fmt := "Failed to bind %sServer to %s:%d"
                     args := [Arg.str (if self.m_config.useTLS = true then "TLS " else ""),
                              Arg.str self.m_config.bindIp, Arg.int self.m_config.port] })
        ∧ (w.httpdStart < 0 → self.m_config.useTLS = true →
            line = { level := Level.err, fmt := "Invalid %s"
                     args := [Arg.str
                       "TLS Config. Check bindIp, port and the certificate/key file."] })
        ∧ (w.httpdStart < 0 → self.m_config.useTLS = false →
            line = { level := Level.err, fmt := "Invalid %s"
                     args := [Arg.str "Config. Check bindIp and port."] })
        ∧ (w.httpdStart = 0 →
            line = { level := Level.info, fmt := "Server stopped. Exit.", args := [] }) := by
  have hbg : Effect.httpdStart ∉
      (if self.m_config.background = true then
        (CCServer.moveToBackground b w { self with m_signals := true }).trace
       else []) := by
    split_ifs
    · intro hmem
      rcases moveToBackground_trace_kinds b w _ _ hmem with hk | ⟨line, hk⟩
      · simp [Effect.isDaemonize] at hk
      · simp at hk
    · simp
  have hgen : Effect.httpdStart ∉
      (if (b.XMRIG_FEATURE_TLS && self.m_config.useTLS) = true then
        [Effect.tlsGenerate self.m_config.certFile self.m_config.keyFile
          (b.APP_NAME ++ " Server")]
       else []) := by
    split_ifs <;> simp
  have hbgl : ∀ l, Effect.log l ∈
      (if self.m_config.background = true then
        (CCServer.moveToBackground b w { self with m_signals := true }).trace
       else []) →
      l.fmt = "setsid() failed (errno = %d)" ∨ l.fmt = "chdir() failed (errno = %d)" := by
    intro l hl
    split_ifs at hl
    · exact moveToBackground_log_fmt b w _ l hl
    · simp at hl
  have hgenl : ∀ l, Effect.log l ∉
      (if (b.XMRIG_FEATURE_TLS && self.m_config.useTLS) = true then
        [Effect.tlsGenerate self.m_config.certFile self.m_config.keyFile
          (b.APP_NAME ++ " Server")]
       else []) := by
    intro l
    split_ifs <;> simp
  rw [start_serves b w self hv hg hd]
  simp only []
  generalize (if (b.XMRIG_FEATURE_TLS && self.m_config.useTLS) = true then
        [Effect.tlsGenerate self.m_config.certFile self.m_config.keyFile
          (b.APP_NAME ++ " Server")]
       else []) = G at hgen hgenl ⊢
  generalize (if self.m_config.background = true then
        (CCServer.moveToBackground b w { self with m_signals := true }).trace
       else []) = B at hbg hbgl ⊢
  have hpre : Effect.httpdStart ∉ G ++ [Effect.signalsCreate] ++ B
      ++ [Effect.summaryPrint, Effect.uvLoopThreadStart, Effect.httpdCreate] := by
    simp [hbg, hgen]
  have hprel : ∀ l, Effect.log l ∈ G ++ [Effect.signalsCreate] ++ B
      ++ [Effect.summaryPrint, Effect.uvLoopThreadStart, Effect.httpdCreate] →
      l.fmt = "setsid() failed (errno = %d)" ∨ l.fmt = "chdir() failed (errno = %d)" := by
    intro l hl
    simp only [List.mem_append, List.mem_cons, List.mem_singleton, List.not_mem_nil,
      or_false] at hl
    rcases hl with ((hl | hl) | hl) | hl
    · exact absurd hl (hgenl l)
    · simp at hl
    · exact hbgl l hl
    · simp at hl
  rcases lt_trichotomy w.httpdStart 0 with hs | hs | hs
  · have hn : ¬ w.httpdStart > 0 := not_lt.mpr hs.le
    refine ⟨G ++ [Effect.signalsCreate] ++ B
        ++ [Effect.summaryPrint, Effect.uvLoopThreadStart, Effect.httpdCreate],
      { level := Level.err, fmt := "Invalid %s"
        args := [Arg.str (if self.m_config.useTLS = true then
                  "TLS Config. Check bindIp, port and the certificate/key file."
                 else "Config. Check bindIp and port.")] },
      ?_, hpre, hprel, ?_, ?_, ?_, ?_⟩
    · simp [if_neg hn, if_pos hs, LOG_ERR]
    · intro h
      exact absurd h hn
    · intro _ ht
      simp [ht]
    · intro _ ht
      simp [ht]
    · intro h
      omega
  · refine ⟨G ++ [Effect.signalsCreate] ++ B
        ++ [Effect.summaryPrint, Effect.uvLoopThreadStart, Effect.httpdCreate],
      { level := Level.info, fmt := "Server stopped. Exit.", args := [] },
      ?_, hpre, hprel, ?_, ?_, ?_, ?_⟩
    · simp [hs, LOG_INFO]
    · intro h
      omega
    · intro h
      omega
    · intro h
      omega
    · intro _
      rfl
  · have hp : w.httpdStart > 0 := hs
    refine ⟨G ++ [Effect.signalsCreate] ++ B
        ++ [Effect.summaryPrint, Effect.uvLoopThreadStart, Effect.httpdCreate],
      { level := Level.err, fmt := "Failed to bind %sServer to %s:%d"
        args := [Arg.str (if self.m_config.useTLS = true then "TLS " else ""),
                 Arg.str self.m_config.bindIp, Arg.int self.m_config.port] },
      ?_, hpre, hprel, ?_, ?_, ?_, ?_⟩
    · simp [if_pos hp, LOG_ERR]
    · intro _
      rfl
    · intro h
      omega
    · intro h
      omega
    · intro h
      omega

/-- Witness of C6: a bind failure (code 98) of the TLS sample configuration. -/
theorem start_logs_service_outcome_witness :
    ∃ pre line,
      (CCServer.start sampleBuild { sampleWorld with httpdStart := 98 }
          (CCServer.new sampleBuild sampleConfig).state).trace
          = pre ++ [Effect.httpdStart, Effect.log line]
        ∧ Effect.httpdStart ∉ pre
        ∧ line = { level := Level.err, fmt := "Failed to bind %sServer to %s:%d"
                   args := [Arg.str "TLS ", Arg.str "0.0.0.0", Arg.int 3344] } := by
  obtain ⟨pre, line, ht, hp, _, hpos, _⟩ :=
    start_logs_service_outcome sampleBuild { sampleWorld with httpdStart := 98 }
      (CCServer.new sampleBuild sampleConfig).state rfl (fun _ => rfl)
      (fun h => absurd h (by decide))
  exact ⟨pre, line, ht, hp, hpos (by decide)⟩

/-- The log lines of a concatenation. -/
theorem logLines_append (xs ys : List Effect) :
    logLines (xs ++ ys) = logLines xs ++ logLines ys := by
  induction xs with
  | nil => rfl
  | cons x xs ih => cases x <;> simp [logLines, ih]

/-- C8 (credential failure gate).  With a valid configuration and TLS enabled
(compiled in and requested), when the credential generator throws with reason
`what`, the whole run of `start()` is the generator call followed by one error
line carrying `what`; it returns `EINVAL`, leaves the object unchanged (no
signal bridge, no service handle), and none of its effects is a daemonization
call, the loop-thread start or the construction or start of the listening
service.  When TLS is not enabled no effect of `start()` invokes the
generator. -/
theorem start_credential_failure (b : Build) (w : World) (self : CCServer) :
    (∀ what, self.m_config.isValid = true →
        (b.XMRIG_FEATURE_TLS && self.m_config.useTLS) = true → w.generate = some what →
        (CCServer.start b w self).trace
            = [Effect.tlsGenerate self.m_config.certFile self.m_config.keyFile
                 (b.APP_NAME ++ " Server"),
               Effect.log { level := Level.err, fmt := "%s", args := [Arg.str what] }]
          ∧ (CCServer.start b w self).outcome = Outcome.ret EINVAL
          ∧ (CCServer.start b w self).state = self
          ∧ ∀ e ∈ (CCServer.start b w self).trace,
              e ≠ Effect.signalsCreate ∧ e.isDaemonize = false
                ∧ e ≠ Effect.uvLoopThreadStart ∧ e ≠ Effect.httpdCreate
                ∧ e ≠ Effect.httpdStart)
      ∧ ((b.XMRIG_FEATURE_TLS && self.m_config.useTLS) = false →
          ∀ e ∈ (CCServer.start b w self).trace, e.isTlsGenerate = false) := by
  constructor
  · intro what hv ht hg
    rw [start_generate_throws b w self what hv ht hg]
    simp [LOG_ERR, Effect.isDaemonize]
  · intro ht
    have hmtb : ∀ e ∈ (CCServer.moveToBackground b w { self with m_signals := true }).trace,
        e.isTlsGenerate = false := by
      intro e he
      rcases moveToBackground_trace_kinds b w _ e he with hk | ⟨line, hk⟩
      · cases e <;> simp_all [Effect.isDaemonize, Effect.isTlsGenerate]
      · subst hk
        rfl
    have hg : (b.XMRIG_FEATURE_TLS && self.m_config.useTLS) = true → w.generate = none := by
      intro h
      rw [ht] at h
      exact absurd h (by decide)
    cases hv : self.m_config.isValid
    · rw [start_of_invalid b w self hv]
      simp [LOG_ERR, Effect.isTlsGenerate]
    · by_cases hd : self.m_config.background = true → b.WIN32 = true ∨ w.fork = 0
      · rw [start_serves b w self hv hg hd]
        intro e he
        simp only [ht, Bool.false_eq_true, if_false, List.nil_append, List.mem_append,
          List.mem_cons, List.mem_singleton, List.not_mem_nil, or_false] at he
        rcases he with (he | he) | he
        · subst he
          rfl
        · split_ifs at he
          · exact hmtb e he
          · simp at he
        · rcases he with he | he | he | he | he
          · subst he
            rfl
          · subst he
            rfl
          · subst he
            rfl
          · subst he
            rfl
          · subst he
            split_ifs <;> rfl
      · push_neg at hd
        have hw : b.WIN32 = false := by simpa using hd.2.1
        rw [start_fork_exits b w self hv hg hd.1 hw hd.2.2]
        simp [ht, Effect.isTlsGenerate]

/-- Witness of C8: the generator fails on the sample configuration, and a
configuration without TLS never reaches the generator. -/
theorem start_credential_failure_witness :
    ((CCServer.start sampleBuild { sampleWorld with generate := some "cannot write key" }
          (CCServer.new sampleBuild sampleConfig).state).trace
        = [Effect.tlsGenerate "server.pem" "server.key" "xmrigCC Server",
           Effect.log { level := Level.err, fmt := "%s", args := [Arg.str "cannot write key"] }]
      ∧ (CCServer.start sampleBuild { sampleWorld with generate := some "cannot write key" }
          (CCServer.new sampleBuild sampleConfig).state).outcome = Outcome.ret EINVAL)
      ∧ ∀ e ∈ (CCServer.start sampleBuild sampleWorld
          (CCServer.new sampleBuild { sampleConfig with useTLS := false }).state).trace,
          e.isTlsGenerate = false :=
  ⟨⟨((start_credential_failure sampleBuild
        { sampleWorld with generate := some "cannot write key" }
        (CCServer.new sampleBuild sampleConfig).state).1 "cannot write key" rfl rfl rfl).1,
    ((start_credential_failure sampleBuild
        { sampleWorld with generate := some "cannot write key" }
        (CCServer.new sampleBuild sampleConfig).state).1 "cannot write key" rfl rfl rfl).2.1⟩,
   (start_credential_failure sampleBuild sampleWorld
      (CCServer.new sampleBuild { sampleConfig with useTLS := false }).state).2 rfl⟩

/-- A run of `start()` whose trace contains one of the POSIX daemonization calls
had a valid configuration, no exception from the generator, background mode
and a POSIX build; `setsid` and `chdir` are reached only in the child. -/
theorem start_posix_daemon (b : Build) (w : World) (self : CCServer) (e : Effect)
    (he : e ∈ (CCServer.start b w self).trace)
    (hk : e = Effect.fork ∨ e = Effect.setsid ∨ e = Effect.chdir "/") :
    self.m_config.isValid = true
      ∧ ((b.XMRIG_FEATURE_TLS && self.m_config.useTLS) = true → w.generate = none)
      ∧ self.m_config.background = true ∧ b.WIN32 = false
      ∧ (e ≠ Effect.fork → w.fork = 0) := by
  cases hv : self.m_config.isValid
  · rw [start_of_invalid b w self hv] at he
    rcases hk with hk | hk | hk <;> subst hk <;> simp [LOG_ERR] at he
  · have hg : (b.XMRIG_FEATURE_TLS && self.m_config.useTLS) = true → w.generate = none := by
      intro ht
      cases hgen : w.generate with
      | none => rfl
      | some what =>
          rw [start_generate_throws b w self what hv ht hgen] at he
          rcases hk with hk | hk | hk <;> subst hk <;> simp [LOG_ERR] at he
    by_cases hd : self.m_config.background = true → b.WIN32 = true ∨ w.fork = 0
    · rw [start_serves b w self hv hg hd] at he
      have hB : e ∈ (if self.m_config.background = true then
          (CCServer.moveToBackground b w { self with m_signals := true }).trace else []) := by
        rcases hk with hk | hk | hk <;> subst hk <;>
          simp only [List.mem_append, List.mem_cons, List.mem_singleton] at he <;>
          rcases he with ((he | he) | he) | he
        all_goals first
          | exact he
          | (split_ifs at he <;> simp [LOG_ERR, LOG_INFO] at he)
          | simp [LOG_ERR, LOG_INFO] at he
      cases hb : self.m_config.background
      · simp [hb] at hB
      · simp only [hb, if_true] at hB
        obtain ⟨_, hshape⟩ := moveToBackground_ret b w { self with m_signals := true } (hd hb)
        rcases hshape with ⟨_, _, ht⟩ | ⟨_, _, ht⟩ | ⟨hw, hf, _⟩
        · rw [ht] at hB
          rcases hk with hk | hk | hk <;> subst hk <;> simp at hB
        · rw [ht] at hB
          rcases hk with hk | hk | hk <;> subst hk <;> simp at hB
        · exact ⟨rfl, hg, rfl, hw, fun _ => hf⟩
    · push_neg at hd
      have hw : b.WIN32 = false := by simpa using hd.2.1
      refine ⟨rfl, hg, hd.1, hw, ?_⟩
      intro hne
      rw [start_fork_exits b w self hv hg hd.1 hw hd.2.2] at he
      simp only [List.mem_append, List.mem_cons, List.mem_singleton, List.not_mem_nil,
        or_false] at he
      rcases he with he | he | he
      · split_ifs at he
        · rcases hk with hk | hk | hk <;> subst hk <;> simp at he
        · simp at he
      · rcases hk with hk | hk | hk <;> subst hk <;> simp at he
      · exact absurd he hne
/-- The log lines of the runs of `start()` that reach the listening service:
those of the POSIX child (a failed `setsid`, a failed `chdir`), then the line
for the result of `Httpd::start()`. -/
theorem start_serves_logLines (b : Build) (w : World) (self : CCServer)
    (hreach : Effect.httpdStart ∈ (CCServer.start b w self).trace) :
    logLines (CCServer.start b w self).trace
      = (if self.m_config.background = true ∧ b.WIN32 = false then
           (if w.setsid < 0 then
              [{ level := Level.err, fmt := "setsid() failed (errno = %d)"
                 args := [Arg.int w.setsidErrno] }]
            else [])
             ++ (if w.chdir < 0 then
                   [{ level := Level.err, fmt := "chdir() failed (errno = %d)"
                      args := [Arg.int w.chdirErrno] }]
                 else [])
         else [])
        ++ [if w.httpdStart > 0 then
              { level := Level.err, fmt := "Failed to bind %sServer to %s:%d"
                args := [Arg.str (if self.m_config.useTLS = true then "TLS " else ""),
                         Arg.str self.m_config.bindIp, Arg.int self.m_config.port] }
            else if w.httpdStart < 0 then
              { level := Level.err, fmt := "Invalid %s"
                args := [Arg.str
                  (if self.m_config.useTLS = true then
                    "TLS Config. Check bindIp, port and the certificate/key file."
                   else "Config. Check bindIp and port.")] }
            else { level := Level.info, fmt := "Server stopped. Exit.", args := [] }] := by
  obtain ⟨hv, hg, hd⟩ := start_reaches_service b w self hreach
  rw [start_serves b w self hv hg hd]
  have hG : logLines (if (b.XMRIG_FEATURE_TLS && self.m_config.useTLS) = true then
        [Effect.tlsGenerate self.m_config.certFile self.m_config.keyFile
          (b.APP_NAME ++ " Server")]
       else []) = [] := by
    split_ifs <;> rfl
  have hL : logLines [Effect.summaryPrint, Effect.uvLoopThreadStart, Effect.httpdCreate,
        Effect.httpdStart,
        if w.httpdStart > 0 then
          LOG_ERR "Failed to bind %sServer to %s:%d"
            [Arg.str (if self.m_config.useTLS = true then "TLS " else ""),
             Arg.str self.m_config.bindIp, Arg.int self.m_config.port]
        else if w.httpdStart < 0 then
          LOG_ERR "Invalid %s"
            [Arg.str
              (if self.m_config.useTLS = true then
                "TLS Config. Check bindIp, port and the certificate/key file."
               else "Config. Check bindIp and port.")]
        else
          LOG_INFO "Server stopped. Exit." []]
      = [if w.httpdStart > 0 then
              { level := Level.err, fmt := "Failed to bind %sServer to %s:%d"
                args := [Arg.str (if self.m_config.useTLS = true then "TLS " else ""),
                         Arg.str self.m_config.bindIp, Arg.int self.m_config.port] }
            else if w.httpdStart < 0 then
              { level := Level.err, fmt := "Invalid %s"
                args := [Arg.str
                  (if self.m_config.useTLS = true then
                    "TLS Config. Check bindIp, port and the certificate/key file."
                   else "Config. Check bindIp and port.")] }
            else { level := Level.info, fmt := "Server stopped. Exit.", args := [] }] := by
    split_ifs <;> rfl
  have hB : logLines (if self.m_config.background = true then
        (CCServer.moveToBackground b w { self with m_signals := true }).trace else [])
      = (if self.m_config.background = true ∧ b.WIN32 = false then
           (if w.setsid < 0 then
              [{ level := Level.err, fmt := "setsid() failed (errno = %d)"
                 args := [Arg.int w.setsidErrno] }]
            else [])
             ++ (if w.chdir < 0 then
                   [{ level := Level.err, fmt := "chdir() failed (errno = %d)"
                      args := [Arg.int w.chdirErrno] }]
                 else [])
         else []) := by
    cases hb : self.m_config.background
    · simp [logLines]
    · obtain ⟨_, hshape⟩ := moveToBackground_ret b w { self with m_signals := true } (hd hb)
      rcases hshape with ⟨hw, _, ht⟩ | ⟨hw, _, ht⟩ | ⟨hw, _, ht⟩
      · simp [ht, hw, logLines]
      · simp [ht, hw, logLines]
      · simp only [ht, hw, if_true, and_self]
        split_ifs <;> simp [logLines, LOG_ERR]
  simp only [logLines_append, hG, hL, hB]
  simp [logLines]

/-- C9, as stated, fails: when `fork()` fails in a background run on POSIX the
process exits with code 1 and the run has emitted no log line. -/
theorem start_fork_failure_is_silent :
    (CCServer.start sampleBuild { sampleWorld with fork := -1 }
        (CCServer.new sampleBuild { sampleConfig with background := true }).state).outcome
        = Outcome.exit 1
      ∧ (CCServer.start sampleBuild { sampleWorld with fork := -1 }
          (CCServer.new sampleBuild { sampleConfig with background := true }).state).trace
        = [Effect.tlsGenerate "server.pem" "server.key" "xmrigCC Server",
           Effect.signalsCreate, Effect.fork]
      ∧ logLines (CCServer.start sampleBuild { sampleWorld with fork := -1 }
          (CCServer.new sampleBuild { sampleConfig with background := true }).state).trace
        = [] := by
  refine ⟨by rfl, by rfl, by rfl⟩

/-- C9 amended (one log line per logged failure).  An invalid configuration and
a failing credential generator each leave exactly one log line, the error for
that failure, and return `EINVAL`.  A failed `setsid`, a failed `chdir`, a bind
failure (positive code) and a listener misconfiguration (negative code) each
have their own error line exactly once among the log lines of the run.  A
failed `fork` ends the process with code 1 and the run has no log line. -/
theorem start_failure_logs_once (b : Build) (w : World) (self : CCServer) :
    (self.m_config.isValid = false →
        logLines (CCServer.start b w self).trace
            = [{ level := Level.err, fmt := "Invalid config provided", args := [] }]
          ∧ (CCServer.start b w self).outcome = Outcome.ret EINVAL)
      ∧ (∀ what, self.m_config.isValid = true →
          (b.XMRIG_FEATURE_TLS && self.m_config.useTLS) = true → w.generate = some what →
          logLines (CCServer.start b w self).trace
              = [{ level := Level.err, fmt := "%s", args := [Arg.str what] }]
            ∧ (CCServer.start b w self).outcome = Outcome.ret EINVAL)
      ∧ (Effect.setsid ∈ (CCServer.start b w self).trace → w.setsid < 0 →
          (logLines (CCServer.start b w self).trace).count
            { level := Level.err, fmt := "setsid() failed (errno = %d)"
              args := [Arg.int w.setsidErrno] } = 1)
      ∧ (Effect.chdir "/" ∈ (CCServer.start b w self).trace → w.chdir < 0 →
          (logLines (CCServer.start b w self).trace).count
            { level := Level.err, fmt := "chdir() failed (errno = %d)"
              args := [Arg.int w.chdirErrno] } = 1)
      ∧ (Effect.httpdStart ∈ (CCServer.start b w self).trace → 0 < w.httpdStart →
          (logLines (CCServer.start b w self).trace).count
            { level := Level.err, fmt := "Failed to bind %sServer to %s:%d"
              args := [Arg.str (if self.m_config.useTLS = true then "TLS " else ""),
                       Arg.str self.m_config.bindIp, Arg.int self.m_config.port] } = 1)
      ∧ (Effect.httpdStart ∈ (CCServer.start b w self).trace → w.httpdStart < 0 →
          (logLines (CCServer.start b w self).trace).count
            { level := Level.err, fmt := "Invalid %s"
              args := [Arg.str
                (if self.m_config.useTLS = true then
                  "TLS Config. Check bindIp, port and the certificate/key file."
                 else "Config. Check bindIp and port.")] } = 1)
      ∧ (Effect.fork ∈ (CCServer.start b w self).trace → w.fork < 0 →
          (CCServer.start b w self).outcome = Outcome.exit 1
            ∧ logLines (CCServer.start b w self).trace = []) := by
  refine ⟨?_, ?_, ?_, ?_, ?_, ?_, ?_⟩
  · intro hv
    rw [start_of_invalid b w self hv]
    exact ⟨rfl, rfl⟩
  · intro what hv ht hg
    rw [start_generate_throws b w self what hv ht hg]
    exact ⟨rfl, rfl⟩
  · intro he hs
    obtain ⟨hv, hg, hb, hw, hf⟩ :=
      start_posix_daemon b w self Effect.setsid he (Or.inr (Or.inl rfl))
    have hreach : Effect.httpdStart ∈ (CCServer.start b w self).trace := by
      rw [start_serves b w self hv hg (fun _ => Or.inr (hf (by simp)))]
      simp
    rw [start_serves_logLines b w self hreach]
    simp only [hb, hw, and_self, if_true, if_pos hs]
    split_ifs <;> simp
  · intro he hs
    obtain ⟨hv, hg, hb, hw, hf⟩ :=
      start_posix_daemon b w self (Effect.chdir "/") he (Or.inr (Or.inr rfl))
    have hreach : Effect.httpdStart ∈ (CCServer.start b w self).trace := by
      rw [start_serves b w self hv hg (fun _ => Or.inr (hf (by simp)))]
      simp
    rw [start_serves_logLines b w self hreach]
    simp only [hb, hw, and_self, if_true, if_pos hs]
    split_ifs <;> simp
  · intro hreach hs
    have hp : w.httpdStart > 0 := hs
    rw [start_serves_logLines b w self hreach]
    simp only [if_pos hp]
    split_ifs <;> simp
  · intro hreach hs
    have hn : ¬ w.httpdStart > 0 := not_lt.mpr hs.le
    rw [start_serves_logLines b w self hreach]
    simp only [if_neg hn, if_pos hs]
    split_ifs <;> simp
  · intro he hs
    obtain ⟨hv, hg, hb, hw, _⟩ := start_posix_daemon b w self Effect.fork he (Or.inl rfl)
    have hf : w.fork ≠ 0 := by omega
    rw [start_fork_exits b w self hv hg hb hw hf]
    simp only [if_pos hs, logLines_append]
    refine ⟨trivial, ?_⟩
    split_ifs <;> rfl

/-- Witness of the amended C9: a background TLS run on POSIX in which `setsid`
and `chdir` fail and the bind fails has each of the three lines once. -/
theorem start_failure_logs_once_witness :
    (logLines (CCServer.start sampleBuild
        { sampleWorld with setsid := -1, setsidErrno := 1, chdir := -1, chdirErrno := 2,
                           httpdStart := 98 }
        (CCServer.new sampleBuild { sampleConfig with background := true }).state).trace).count
        { level := Level.err, fmt := "setsid() failed (errno = %d)", args := [Arg.int 1] } = 1
      ∧ (logLines (CCServer.start sampleBuild
        { sampleWorld with setsid := -1, setsidErrno := 1, chdir := -1, chdirErrno := 2,
                           httpdStart := 98 }
        (CCServer.new sampleBuild { sampleConfig with background := true }).state).trace).count
        { level := Level.err, fmt := "chdir() failed (errno = %d)", args := [Arg.int 2] } = 1
      ∧ (logLines (CCServer.start sampleBuild
        { sampleWorld with setsid := -1, setsidErrno := 1, chdir := -1, chdirErrno := 2,
                           httpdStart := 98 }
        (CCServer.new sampleBuild { sampleConfig with background := true }).state).trace).count
        { level := Level.err, fmt := "Failed to bind %sServer to %s:%d"
          args := [Arg.str "TLS ", Arg.str "0.0.0.0", Arg.int 3344] } = 1 :=
  ⟨(start_failure_logs_once sampleBuild
      { sampleWorld with setsid := -1, setsidErrno := 1, chdir := -1, chdirErrno := 2,
                         httpdStart := 98 }
      (CCServer.new sampleBuild { sampleConfig with background := true }).state).2.2.1
      (by decide) (by decide),
   (start_failure_logs_once sampleBuild
      { sampleWorld with setsid := -1, setsidErrno := 1, chdir := -1, chdirErrno := 2,
                         httpdStart := 98 }
      (CCServer.new sampleBuild { sampleConfig with background := true }).state).2.2.2.1
      (by decide) (by decide),
   (start_failure_logs_once sampleBuild
      { sampleWorld with setsid := -1, setsidErrno := 1, chdir := -1, chdirErrno := 2,
                         httpdStart := 98 }
      (CCServer.new sampleBuild { sampleConfig with background := true }).state).2.2.2.2.1
      (by decide) (by decide)⟩

/-- The executable check `precedesB` establishes `Precedes`. -/
theorem precedesB_sound (p q : Effect → Bool) (tr : List Effect)
    (h : precedesB p q tr = true) : Precedes p q tr := by
  induction tr with
  | nil =>
      intro pre e post heq _
      simp at heq
  | cons a as ih =>
      intro pre e post heq hq
      simp only [precedesB] at h
      cases pre with
      | nil =>
          simp only [List.nil_append, List.cons.injEq] at heq
          rw [← heq.1] at hq
          simp [hq] at h
      | cons x xs =>
          simp only [List.cons_append, List.cons.injEq] at heq
          obtain ⟨hx, hrest⟩ := heq
          subst hx
          by_cases hqa : q a = true
          · simp [hqa] at h
          · by_cases hpa : p a = true
            · exact ⟨a, List.mem_cons_self a xs, hpa⟩
            · simp only [hqa, hpa, if_false] at h
              obtain ⟨y, hy, hpy⟩ := ih h xs e post hrest hq
              exact ⟨y, List.mem_cons_of_mem a hy, hpy⟩

/-- The executable check `noneAfterB` establishes `NoneAfter`. -/
theorem noneAfterB_sound (p q : Effect → Bool) (tr : List Effect)
    (h : noneAfterB p q tr = true) : NoneAfter p q tr := by
  induction tr with
  | nil =>
      intro pre e post heq _
      simp at heq
  | cons a as ih =>
      intro pre e post heq hq
      simp only [noneAfterB, Bool.and_eq_true] at h
      cases pre with
      | nil =>
          simp only [List.nil_append, List.cons.injEq] at heq
          obtain ⟨ha, hrest⟩ := heq
          subst ha
          subst hrest
          have h1 := h.1
          simp only [hq, if_true, List.all_eq_true, Bool.not_eq_true'] at h1
          exact h1
      | cons x xs =>
          simp only [List.cons_append, List.cons.injEq] at heq
          exact ih h.2 xs e post heq.2 hq

/-- The executable ordering checks hold on the trace of every run of `start()`
on a valid configuration. -/
theorem ordering_checks_of_start (b : Build) (w : World) (self : CCServer)
    (hv : self.m_config.isValid = true) :
    ((b.XMRIG_FEATURE_TLS && self.m_config.useTLS) = true →
        precedesB Effect.isTlsGenerate Effect.isHttpdCreate (CCServer.start b w self).trace
          = true)
      ∧ precedesB Effect.isSignalsCreate Effect.isDaemonize (CCServer.start b w self).trace
          = true
      ∧ (self.m_config.background = true →
          precedesB Effect.isDaemonizeLast Effect.isLoopThreadStart
            (CCServer.start b w self).trace = true)
      ∧ noneAfterB Effect.isDaemonize Effect.isLoopThreadStart (CCServer.start b w self).trace
          = true
      ∧ precedesB Effect.isLoopThreadStart Effect.isHttpdStart (CCServer.start b w self).trace
          = true := by
  by_cases hthrow : (b.XMRIG_FEATURE_TLS && self.m_config.useTLS) = true ∧ w.generate ≠ none
  · obtain ⟨ht, hne⟩ := hthrow
    cases hgen : w.generate with
    | none => exact absurd hgen hne
    | some what =>
        rw [start_generate_throws b w self what hv ht hgen]
        simp [precedesB, noneAfterB, LOG_ERR, Effect.isTlsGenerate, Effect.isHttpdCreate,
          Effect.isSignalsCreate, Effect.isDaemonize, Effect.isDaemonizeLast,
          Effect.isLoopThreadStart, Effect.isHttpdStart]
  · have hg : (b.XMRIG_FEATURE_TLS && self.m_config.useTLS) = true → w.generate = none := by
      intro ht
      by_contra hne
      exact hthrow ⟨ht, hne⟩
    by_cases hd : self.m_config.background = true → b.WIN32 = true ∨ w.fork = 0
    · rw [start_serves b w self hv hg hd]
      cases ht : (b.XMRIG_FEATURE_TLS && self.m_config.useTLS) <;>
        cases hb : self.m_config.background <;>
        simp only [Bool.false_eq_true, if_false, if_true, eq_self_iff_true, List.nil_append,
          false_implies, true_implies]
      · split_ifs <;>
          simp [precedesB, noneAfterB, LOG_ERR, LOG_INFO, Effect.isTlsGenerate,
            Effect.isHttpdCreate, Effect.isSignalsCreate, Effect.isDaemonize,
            Effect.isDaemonizeLast, Effect.isLoopThreadStart, Effect.isHttpdStart]
      · obtain ⟨_, hshape⟩ := moveToBackground_ret b w { self with m_signals := true } (hd hb)
        rcases hshape with ⟨_, _, hm⟩ | ⟨_, _, hm⟩ | ⟨_, _, hm⟩ <;> rw [hm] <;> split_ifs <;>
          simp [precedesB, noneAfterB, LOG_ERR, LOG_INFO, Effect.isTlsGenerate,
            Effect.isHttpdCreate, Effect.isSignalsCreate, Effect.isDaemonize,
            Effect.isDaemonizeLast, Effect.isLoopThreadStart, Effect.isHttpdStart]
      · split_ifs <;>
          simp [precedesB, noneAfterB, LOG_ERR, LOG_INFO, Effect.isTlsGenerate,
            Effect.isHttpdCreate, Effect.isSignalsCreate, Effect.isDaemonize,
            Effect.isDaemonizeLast, Effect.isLoopThreadStart, Effect.isHttpdStart]
      · obtain ⟨_, hshape⟩ := moveToBackground_ret b w { self with m_signals := true } (hd hb)
        rcases hshape with ⟨_, _, hm⟩ | ⟨_, _, hm⟩ | ⟨_, _, hm⟩ <;> rw [hm] <;> split_ifs <;>
          simp [precedesB, noneAfterB, LOG_ERR, LOG_INFO, Effect.isTlsGenerate,
            Effect.isHttpdCreate, Effect.isSignalsCreate, Effect.isDaemonize,
            Effect.isDaemonizeLast, Effect.isLoopThreadStart, Effect.isHttpdStart]
    · push_neg at hd
      have hw : b.WIN32 = false := by simpa using hd.2.1
      rw [start_fork_exits b w self hv hg hd.1 hw hd.2.2]
      split_ifs <;>
        simp [precedesB, noneAfterB, Effect.isTlsGenerate, Effect.isHttpdCreate,
          Effect.isSignalsCreate, Effect.isDaemonize, Effect.isDaemonizeLast,
          Effect.isLoopThreadStart, Effect.isHttpdStart]

/-- C4 (startup ordering).  In the trace of every run of `start()` on a valid
configuration: with TLS enabled (compiled in and requested) the construction of
the listening service is preceded by the credential generator's call, which has
returned normally; every daemonization call is preceded by the installation of
the signal bridge; in background mode the start of the loop thread is preceded
by the last daemonization call, and no daemonization call follows it; the call
of the listening service's `start()` is preceded by the start of the loop
thread and by the construction of the service. -/
theorem start_ordering (b : Build) (w : World) (self : CCServer)
    (hv : self.m_config.isValid = true) :
    ((b.XMRIG_FEATURE_TLS && self.m_config.useTLS) = true →
        Precedes Effect.isTlsGenerate Effect.isHttpdCreate (CCServer.start b w self).trace
          ∧ (Effect.httpdCreate ∈ (CCServer.start b w self).trace → w.generate = none))
      ∧ Precedes Effect.isSignalsCreate Effect.isDaemonize (CCServer.start b w self).trace
      ∧ (self.m_config.background = true →
          Precedes Effect.isDaemonizeLast Effect.isLoopThreadStart
            (CCServer.start b w self).trace)
      ∧ NoneAfter Effect.isDaemonize Effect.isLoopThreadStart (CCServer.start b w self).trace
      ∧ Precedes Effect.isLoopThreadStart Effect.isHttpdStart (CCServer.start b w self).trace
      ∧ (Effect.httpdStart ∈ (CCServer.start b w self).trace →
          Effect.httpdCreate ∈ (CCServer.start b w self).trace) := by
  obtain ⟨h1, h2, h3, h4, h5⟩ := ordering_checks_of_start b w self hv
  refine ⟨?_, precedesB_sound _ _ _ h2, fun hb => precedesB_sound _ _ _ (h3 hb),
    noneAfterB_sound _ _ _ h4, precedesB_sound _ _ _ h5, ?_⟩
  · intro ht
    refine ⟨precedesB_sound _ _ _ (h1 ht), ?_⟩
    intro hc
    cases hgen : w.generate with
    | none => rfl
    | some what =>
        rw [start_generate_throws b w self what hv ht hgen] at hc
        simp [LOG_ERR] at hc
  · intro hreach
    obtain ⟨_, hg, hd⟩ := start_reaches_service b w self hreach
    rw [start_serves b w self hv hg hd]
    simp

/-- Witness of C4: a background TLS run on POSIX that reaches the service. -/
theorem start_ordering_witness :
    (Precedes Effect.isTlsGenerate Effect.isHttpdCreate
        (CCServer.start sampleBuild sampleWorld
          (CCServer.new sampleBuild { sampleConfig with background := true }).state).trace
      ∧ Precedes Effect.isSignalsCreate Effect.isDaemonize
        (CCServer.start sampleBuild sampleWorld
          (CCServer.new sampleBuild { sampleConfig with background := true }).state).trace
      ∧ Precedes Effect.isDaemonizeLast Effect.isLoopThreadStart
        (CCServer.start sampleBuild sampleWorld
          (CCServer.new sampleBuild { sampleConfig with background := true }).state).trace
      ∧ Precedes Effect.isLoopThreadStart Effect.isHttpdStart
        (CCServer.start sampleBuild sampleWorld
          (CCServer.new sampleBuild { sampleConfig with background := true }).state).trace)
      ∧ (CCServer.start sampleBuild sampleWorld
          (CCServer.new sampleBuild { sampleConfig with background := true }).state).trace
        = [Effect.tlsGenerate "server.pem" "server.key" "xmrigCC Server",
           Effect.signalsCreate, Effect.fork, Effect.setsid, Effect.chdir "/",
           Effect.summaryPrint, Effect.uvLoopThreadStart, Effect.httpdCreate,
           Effect.httpdStart,
           Effect.log { level := Level.info, fmt := "Server stopped. Exit.", args := [] }] :=
  ⟨⟨((start_ordering sampleBuild sampleWorld
        (CCServer.new sampleBuild { sampleConfig with background := true }).state rfl).1 rfl).1,
    (start_ordering sampleBuild sampleWorld
        (CCServer.new sampleBuild { sampleConfig with background := true }).state rfl).2.1,
    (start_ordering sampleBuild sampleWorld
        (CCServer.new sampleBuild { sampleConfig with background := true }).state rfl).2.2.1 rfl,
    (start_ordering sampleBuild sampleWorld
        (CCServer.new sampleBuild { sampleConfig with background := true }).state
        rfl).2.2.2.2.1⟩,
   by rfl⟩

end XmrigCC
